import Mathlib

/-!
Verification of the CareFlow API-gateway core against its specification.

The definitions below are shallow embeddings of the gateway source:
the Redis-backed sliding-window rate limiter (RedisService.checkRateLimit),
the token blacklist (RedisService.isTokenBlacklisted, JwtStrategy.validate),
the authorization guard (RolesGuard.canActivate), the proxy error
normalizer (ProxyService.handleProxyError), the WebSocket handshake
validation and subscribe handlers (WsJwtGuard.validateToken,
CareFlowWebSocketGateway), and the WebSocket session mirror in Redis
(RedisService.registerWebSocketSession / removeWebSocketSession).

Definitions suffixed with Spec are written from the specification text
and are compared with the code-derived definitions.
-/

deriving instance DecidableEq for Except

namespace CareFlow

/-! ## Rate limiter (RedisService.checkRateLimit)

The Redis sorted set keyed by the identifier is modelled as a finite set
of millisecond timestamps: checkRateLimit uses the string of the
timestamp as the member and the timestamp as the score, so a member is
determined by its score and the sorted set is exactly a set of numbers.
A ZADD of an already-present timestamp only rewrites its score, which
the set insert models faithfully.  The key expiry set by EXPIRE is kept
alongside as the number of seconds requested. -/

structure RateLimitResult where
  allowed : Bool
  remaining : Int
  resetIn : Nat
deriving Repr, DecidableEq, Inhabited

structure RateLimitState where
  entries : Finset Nat
  ttl : Option Nat
deriving DecidableEq

/-- Embedding of RedisService.checkRateLimit (src/unnamed/part_009,
lines 138-167).  The MULTI transaction runs, in order:
ZREMRANGEBYSCORE key 0 (now - windowSeconds*1000), ZCARD key,
ZADD key now now, EXPIRE key windowSeconds; the returned count is the
ZCARD result, taken after the prune and before the insert.  All scores
are nonnegative, so the ZREMRANGEBYSCORE range 0..windowStart removes
exactly the entries with score at most windowStart. -/
def checkRateLimit (s : RateLimitState) (now maxRequests windowSeconds : Nat) :
    RateLimitResult × RateLimitState :=
  let windowStart : Int := (now : Int) - (windowSeconds : Int) * 1000
  let pruned := s.entries.filter (fun (t : Nat) => windowStart < (t : Int))
  let currentCount := pruned.card
  ({ allowed := decide (currentCount < maxRequests)
   , remaining := max 0 ((maxRequests : Int) - (currentCount : Int) - 1)
   , resetIn := windowSeconds }
  , { entries := insert now pruned, ttl := some windowSeconds })

/-- Modelled from the spec: the admit algorithm as the specification
words it — remove entries older than now - windowSeconds; count the
remaining entries; insert now and refresh the expiry of the key to
windowSeconds ONLY IF count < limit; return allowed = (count < limit)
and remaining = max(0, limit - count - 1). -/
def admitSpec (s : RateLimitState) (now maxRequests windowSeconds : Nat) :
    RateLimitResult × RateLimitState :=
  let windowStart : Int := (now : Int) - (windowSeconds : Int) * 1000
  let pruned := s.entries.filter (fun (t : Nat) => windowStart < (t : Int))
  let currentCount := pruned.card
  let res : RateLimitResult :=
    { allowed := decide (currentCount < maxRequests)
    , remaining := max 0 ((maxRequests : Int) - (currentCount : Int) - 1)
    , resetIn := windowSeconds }
  if currentCount < maxRequests then
    (res, { entries := insert now pruned, ttl := some windowSeconds })
  else
    (res, { entries := pruned, ttl := s.ttl })

/-- Modelled from the spec, amended: identical to admitSpec except that
the insertion of now and the expiry refresh happen unconditionally,
also when count is at or above the limit. -/
def admitSpecAmended (s : RateLimitState) (now maxRequests windowSeconds : Nat) :
    RateLimitResult × RateLimitState :=
  let windowStart : Int := (now : Int) - (windowSeconds : Int) * 1000
  let pruned := s.entries.filter (fun (t : Nat) => windowStart < (t : Int))
  let currentCount := pruned.card
  ({ allowed := decide (currentCount < maxRequests)
   , remaining := max 0 ((maxRequests : Int) - (currentCount : Int) - 1)
   , resetIn := windowSeconds }
  , { entries := insert now pruned, ttl := some windowSeconds })

/-- A trace of admit calls against one identifier: the MULTI transaction
makes each call atomic, so any interleaving of concurrent callers is a
sequence of checkRateLimit steps threaded through the shared state. -/
def rlRun (s : RateLimitState) (ts : List Nat) (maxRequests windowSeconds : Nat) :
    List RateLimitResult × RateLimitState :=
  match ts with
  | [] => ([], s)
  | t :: rest =>
    let step := checkRateLimit s t maxRequests windowSeconds
    let tail := rlRun step.2 rest maxRequests windowSeconds
    (step.1 :: tail.1, tail.2)

/-- The result returned by a call that observes a post-prune count c. -/
def mkRlResult (c maxRequests windowSeconds : Nat) : RateLimitResult :=
  { allowed := decide (c < maxRequests)
  , remaining := max 0 ((maxRequests : Int) - (c : Int) - 1)
  , resetIn := windowSeconds }

/-! ## Authorization guard (RolesGuard.canActivate)

RolesGuard.canActivate (src/unnamed/part_013) reads three pieces of
route metadata — the public marker and the required-roles and
required-permissions arrays, each possibly absent — plus the identity
attached by the authentication guard.  The boolean result models the
decision: true is allow, false is the thrown ForbiddenException (403).
An absent metadata array behaves like JavaScript undefined, whose
length access yields a falsy value. -/

/-- Length of a possibly-absent metadata array: the guard tests
requiredRoles?.length, where an absent array is falsy like length 0. -/
def optListLen : Option (List String) → Nat
  | none => 0
  | some l => l.length

structure UserContext where
  userId : String
  email : String
  roles : List String
  permissions : List String
  departmentId : Option String
deriving Repr, DecidableEq, Inhabited

/-- Embedding of RolesGuard.canActivate (src/unnamed/part_013, lines
18-72): public routes pass; routes with no role and no permission
requirement pass without consulting the identity; otherwise a missing
identity is Forbidden; the role check requires at least one required
role (OR) when the required-roles array is non-empty, and the
permission check requires every required permission (AND) when the
required-permissions array is non-empty. -/
def rolesGuardCanActivate (isPublic : Bool)
    (requiredRoles requiredPermissions : Option (List String))
    (user : Option UserContext) : Bool :=
  if isPublic then true
  else if optListLen requiredRoles == 0 && optListLen requiredPermissions == 0 then true
  else
    match user with
    | none => false
    | some u =>
      let roleOk := if 0 < optListLen requiredRoles then
          (requiredRoles.getD []).any (fun r => u.roles.contains r)
        else true
      let permOk := if 0 < optListLen requiredPermissions then
          (requiredPermissions.getD []).all (fun p => u.permissions.contains p)
        else true
      roleOk && permOk

/-- Modelled from the spec: the reference access-decision rule.  Allow
unconditionally if the route is public; if required-roles is non-empty
allow only a caller holding at least one listed role; if
required-permissions is non-empty allow only a caller holding all
listed permissions; both checks apply independently; a missing identity
fails any non-empty requirement. -/
def accessDecisionSpec (isPublic : Bool)
    (requiredRoles requiredPermissions : Option (List String))
    (user : Option UserContext) : Bool :=
  if isPublic then true
  else
    let rs := requiredRoles.getD []
    let ps := requiredPermissions.getD []
    let roleCheck := rs.isEmpty ||
      (match user with
       | some u => rs.any (fun r => u.roles.contains r)
       | none => false)
    let permCheck := ps.isEmpty ||
      (match user with
       | some u => ps.all (fun p => u.permissions.contains p)
       | none => false)
    roleCheck && permCheck

/-! ## Credential validation (JwtStrategy.validate, WsJwtGuard.validateToken)

A bearer token is modelled after verification-relevant content: whether
its signature verifies against the gateway secret, its claims, and its
issued-at/expiry timestamps (seconds).  The blacklist in the shared cache is
the list of present cache keys; RedisService.isTokenBlacklisted
prepends the blacklist: prefix to the token identifier.  The HTTP
pipeline (passport-jwt with ignoreExpiration false, then
JwtStrategy.validate) checks signature, then expiry, then — only for a
truthy (non-empty) subject — the revocation key built from
subject and issued-at.  Every failure surfaces as 401. -/

structure JwtToken where
  sigValid : Bool
  sub : String
  email : String
  roles : List String
  permissions : List String
  departmentId : Option String
  iat : Nat
  exp : Nat
deriving Repr, DecidableEq

inductive HttpAuthError where
  | signatureInvalid
  | expired
  | revoked
deriving Repr, DecidableEq

/-- Embedding of RedisService.isTokenBlacklisted (src/unnamed/part_009,
lines 127-130): EXISTS on the key blacklist: + jti. -/
def isTokenBlacklisted (cache : List String) (jti : String) : Bool :=
  cache.contains ("blacklist:" ++ jti)

/-- The JwtPayload to UserContext mapping done at the end of
JwtStrategy.validate. -/
def tokenToUserContext (tok : JwtToken) : UserContext :=
  { userId := tok.sub
  , email := tok.email
  , roles := tok.roles
  , permissions := tok.permissions
  , departmentId := tok.departmentId }

/-- Embedding of the HTTP credential validation: passport-jwt signature
verification and expiry check, then JwtStrategy.validate
(src/services/api-gateway/src/auth/strategies/jwt.strategy.ts, lines
40-70).  The blacklist lookup runs only under the payload.sub
truthiness guard, so an empty subject skips it. -/
def jwtStrategyValidate (tok : JwtToken) (cache : List String) (now : Nat) :
    Except HttpAuthError UserContext :=
  if tok.sigValid = false then Except.error HttpAuthError.signatureInvalid
  else if tok.exp ≤ now then Except.error HttpAuthError.expired
  else if tok.sub ≠ "" ∧ isTokenBlacklisted cache (tok.sub ++ ":" ++ toString tok.iat) = true then
    Except.error HttpAuthError.revoked
  else Except.ok (tokenToUserContext tok)

/-- HTTP status of an authentication failure: passport failures and the
UnauthorizedException thrown on revocation are all 401. -/
def authFailureStatus : HttpAuthError → Nat
  | HttpAuthError.signatureInvalid => 401
  | HttpAuthError.expired => 401
  | HttpAuthError.revoked => 401

inductive WsError where
  | invalidToken
  | insufficientPermissions
deriving Repr, DecidableEq

/-- Embedding of WsJwtGuard.validateToken
(src/services/api-gateway/src/websocket/websocket.gateway.ts, lines
29-46): jwtService.verify checks the signature and expiry; any verify
failure is caught and becomes WsException Invalid token.  No
revocation-list lookup happens on this path. -/
def wsJwtGuardValidateToken (tok : JwtToken) (now : Nat) : Except WsError UserContext :=
  if tok.sigValid && decide (now < tok.exp) then Except.ok (tokenToUserContext tok)
  else Except.error WsError.invalidToken

/-! ## Proxy error normalization (ProxyService.handleProxyError)

An axios failure is modelled by whether axios.isAxiosError holds, the
optional downstream response (status and parsed body), the optional
transport error code and the transport error message.  JavaScript
truthiness of the body fields matters for the fallback chains: an
absent field and an empty string are both falsy. -/

/-- JavaScript falsiness of an optional string field: absent
(undefined/null) or the empty string. -/
def strFalsy : Option String → Bool
  | none => true
  | some s => s == ""

/-- The two-step fallback a || b || dflt over optional strings. -/
def jsOr (a b : Option String) (dflt : String) : String :=
  if strFalsy a then (if strFalsy b then dflt else b.getD "") else a.getD ""

/-- The one-step fallback a || dflt over an optional string. -/
def jsOrD (a : Option String) (dflt : String) : String :=
  if strFalsy a then dflt else a.getD ""

/-- The parts of a downstream error body that handleProxyError reads:
data.message, data.error.message and data.error.code, each possibly
absent. -/
structure UpstreamErrorBody where
  message : Option String
  errorMessage : Option String
  errorCode : Option String
deriving Repr, DecidableEq

structure AxiosErrorModel where
  isAxiosError : Bool
  response : Option (Nat × Option UpstreamErrorBody)
  code : Option String
  message : String
deriving Repr, DecidableEq

structure GatewayError where
  status : Nat
  code : String
  message : String
deriving Repr, DecidableEq

/-- Embedding of ProxyService.handleProxyError
(src/services/api-gateway/src/proxy/proxy.service.ts, lines 174-230):
a downstream response forwards its status with the body re-wrapped; a
no-response failure maps ECONNREFUSED to 503 SERVICE_UNAVAILABLE and
ETIMEDOUT or ECONNABORTED to 504 GATEWAY_TIMEOUT; every other failure,
axios or not, becomes 500 INTERNAL_ERROR.  The branch messages are
fixed literals, so the transport error message never reaches the
client. -/
def handleProxyError (e : AxiosErrorModel) : GatewayError :=
  if e.isAxiosError then
    match e.response with
    | some (status, data) =>
      { status := status
      , code := jsOrD (data.bind UpstreamErrorBody.errorCode) "UPSTREAM_ERROR"
      , message := jsOr (data.bind UpstreamErrorBody.message)
          (data.bind UpstreamErrorBody.errorMessage) "Service error" }
    | none =>
      if e.code = some "ECONNREFUSED" then
        { status := 503, code := "SERVICE_UNAVAILABLE"
        , message := "Service temporarily unavailable" }
      else if e.code = some "ETIMEDOUT" ∨ e.code = some "ECONNABORTED" then
        { status := 504, code := "GATEWAY_TIMEOUT", message := "Service request timed out" }
      else
        { status := 500, code := "INTERNAL_ERROR", message := "An unexpected error occurred" }
  else
    { status := 500, code := "INTERNAL_ERROR", message := "An unexpected error occurred" }

inductive DownstreamOutcome where
  | success (body : String)
  | failure (e : AxiosErrorModel)

/-- Embedding of the dispatch-and-normalize path of ProxyService.forward
(proxy.service.ts, lines 115-123): one single await of the downstream
call; on failure the normalized error is thrown.  The attempt function
gives the outcome each dispatch would have; forward consumes only
attempt 0 — there is no retry loop. -/
def proxyForward (attempts : Nat → DownstreamOutcome) : Except GatewayError String :=
  match attempts 0 with
  | DownstreamOutcome.success body => Except.ok body
  | DownstreamOutcome.failure e => Except.error (handleProxyError e)

/-! ## WebSocket subscribe handlers (CareFlowWebSocketGateway)

Both handlers run only on an authenticated socket (handleConnection
disconnects unauthenticated clients before any message is processed),
so they receive the UserContext of the connection. -/

structure SubscribeAck where
  event : String
  room : String
deriving Repr, DecidableEq

/-- The role list checked by the patient-room subscribe handler. -/
def patientRoomRoles : List String := ["admin", "doctor", "nurse"]

/-- Embedding of handleSubscribeAppointment (websocket.gateway.ts,
lines 184-194): joins the appointment room and acknowledges, with no
role or permission check. -/
def handleSubscribeAppointment (_user : UserContext) (appointmentId : String) :
    Except WsError SubscribeAck :=
  Except.ok { event := "subscribed", room := "appointment:" ++ appointmentId }

/-- Embedding of handleSubscribePatient (websocket.gateway.ts, lines
213-228): requires at least one of the roles admin, doctor, nurse,
else throws WsException Insufficient permissions. -/
def handleSubscribePatient (user : UserContext) (patientId : String) :
    Except WsError SubscribeAck :=
  if user.roles.any (fun r => patientRoomRoles.contains r) then
    Except.ok { event := "subscribed", room := "patient:" ++ patientId }
  else
    Except.error WsError.insufficientPermissions

/-! ## WebSocket session mirror (RedisService.registerWebSocketSession)

The cache is modelled with the parts these operations touch: plain
keys with a value and an expiry deadline (SETEX), and set keys with
members and an expiry deadline (SADD + EXPIRE).  A read applies the
expiry: a key set at time t with TTL 3600 answers until t + 3600
(exclusive), after which Redis deletes it.  Times are seconds. -/

structure WsCache where
  kv : String → Option (String × Nat)
  setMembers : String → Finset String
  setDeadline : String → Option Nat

/-- Value of a plain key at the given time, honoring its expiry. -/
def liveKv (c : WsCache) (k : String) (now : Nat) : Option String :=
  match c.kv k with
  | some (v, d) => if now < d then some v else none
  | none => none

/-- Members of a set key at the given time, honoring its expiry. -/
def liveSetMembers (c : WsCache) (k : String) (now : Nat) : Finset String :=
  match c.setDeadline k with
  | some d => if now < d then c.setMembers k else ∅
  | none => c.setMembers k

/-- Embedding of RedisService.registerWebSocketSession
(src/unnamed/part_009, lines 171-186): SETEX ws:session:socketId with
the session JSON (modelled by its userId) and a fixed TTL of 3600,
then SADD socketId into ws:user:userId and EXPIRE that set to 3600.
The TTL constant 3600 is hard-coded; nothing in the gateway refreshes
it later — handleConnection (websocket.gateway.ts, lines 133-137) calls
this once per connection, and the only other writer to these keys is
removeWebSocketSession on disconnect. -/
def registerWebSocketSession (c : WsCache) (socketId userId : String) (now : Nat) : WsCache :=
  { kv := fun key =>
      if key = "ws:session:" ++ socketId then some (userId, now + 3600) else c.kv key
  , setMembers := fun key =>
      if key = "ws:user:" ++ userId then
        insert socketId (c.setMembers ("ws:user:" ++ userId))
      else c.setMembers key
  , setDeadline := fun key =>
      if key = "ws:user:" ++ userId then some (now + 3600) else c.setDeadline key }

/-- Embedding of RedisService.removeWebSocketSession
(src/unnamed/part_009, lines 188-191): DEL ws:session:socketId and
SREM socketId from ws:user:userId. -/
def removeWebSocketSession (c : WsCache) (socketId userId : String) : WsCache :=
  { kv := fun key =>
      if key = "ws:session:" ++ socketId then none else c.kv key
  , setMembers := fun key =>
      if key = "ws:user:" ++ userId then
        (c.setMembers ("ws:user:" ++ userId)).erase socketId
      else c.setMembers key
  , setDeadline := c.setDeadline }

/-- Helper: a trace of calls whose timestamps are strictly increasing,
all pairwise within the window, and all fresher than every entry already
accumulated, prunes nothing: the i-th call observes count acc.card + i,
and the final set is acc together with every call timestamp. -/
theorem rlRun_fresh_window (maxRequests windowSeconds : Nat) :
    ∀ (ts : List Nat) (acc : Finset Nat) (ttl : Option Nat),
    List.Pairwise (· < ·) ts →
    (∀ t ∈ ts, ∀ u ∈ ts, (u : Int) - (windowSeconds : Int) * 1000 < (t : Int)) →
    (∀ a ∈ acc, ∀ t ∈ ts, (t : Int) - (windowSeconds : Int) * 1000 < (a : Int)) →
    (∀ t ∈ ts, t ∉ acc) →
    (rlRun ⟨acc, ttl⟩ ts maxRequests windowSeconds).1 =
      (List.range ts.length).map (fun i => mkRlResult (acc.card + i) maxRequests windowSeconds) ∧
    (rlRun ⟨acc, ttl⟩ ts maxRequests windowSeconds).2.entries = acc ∪ ts.toFinset := by
  intro ts
  induction ts with
  | nil =>
    intro acc ttl _ _ _ _
    simp [rlRun]
  | cons t rest ih =>
    intro acc ttl hsorted hspan hfresh hnew
    have hprune : acc.filter
        (fun (a : Nat) => (t : Int) - (windowSeconds : Int) * 1000 < (a : Int)) = acc := by
      apply Finset.filter_true_of_mem
      intro a ha
      exact hfresh a ha t (List.mem_cons_self t rest)
    have hstep : checkRateLimit ⟨acc, ttl⟩ t maxRequests windowSeconds =
        (mkRlResult acc.card maxRequests windowSeconds,
          ⟨insert t acc, some windowSeconds⟩) := by
      simp [checkRateLimit, mkRlResult, hprune]
    have htacc : t ∉ acc := hnew t (List.mem_cons_self t rest)
    have hrest := ih (insert t acc) (some windowSeconds)
      (List.Pairwise.of_cons hsorted)
      (fun x hx u hu => hspan x (List.mem_cons_of_mem t hx) u (List.mem_cons_of_mem t hu))
      (by
        intro a ha u hu
        rcases Finset.mem_insert.mp ha with h | h
        · subst h
          exact hspan a (List.mem_cons_self a rest) u (List.mem_cons_of_mem a hu)
        · exact hfresh a h u (List.mem_cons_of_mem t hu))
      (by
        intro u hu
        intro hmem
        rcases Finset.mem_insert.mp hmem with h | h
        · rcases List.pairwise_cons.mp hsorted with ⟨hlt, _⟩
          have := hlt u hu
          omega
        · exact hnew u (List.mem_cons_of_mem t hu) h)
    have hcard : (insert t acc).card = acc.card + 1 := Finset.card_insert_of_not_mem htacc
    constructor
    · show (rlRun ⟨acc, ttl⟩ (t :: rest) maxRequests windowSeconds).1 = _
      simp only [rlRun, hstep]
      rw [hrest.1, hcard]
      rw [List.length_cons, List.range_succ_eq_map]
      simp only [List.map_cons, List.map_map, Function.comp, Nat.add_zero]
      refine List.cons_eq_cons.mpr ⟨rfl, ?_⟩
      apply List.map_congr_left
      intro i _
      congr 1
      omega
    · show (rlRun ⟨acc, ttl⟩ (t :: rest) maxRequests windowSeconds).2.entries = _
      simp only [rlRun, hstep]
      rw [hrest.2]
      rw [List.toFinset_cons]
      ext x
      simp [Finset.mem_insert, Finset.mem_union, or_assoc]

/-- Helper: reading an in-range position of a mapped range list. -/
theorem range_map_getD {α : Type} (n : Nat) (f : Nat → α) (i : Nat) (h : i < n) (d : α) :
    ((List.range n).map f).getD i d = f i := by
  rw [List.getD_eq_getElem?_getD, List.getElem?_map, List.getElem?_range h]
  rfl

/-- C1 counterexample: with limit 1 and window 10 s, a call at
now = 2000 finding the single in-window entry 1000 is denied
(count = 1), yet the code still inserts 2000 into the sorted set and
still refreshes the key expiry to the window length, where the claimed
algorithm inserts and refreshes only if count < limit. -/
theorem checkRateLimit_conditional_insert_cex :
    (checkRateLimit ⟨{1000}, some 5⟩ 2000 1 10).1.allowed = false ∧
    2000 ∈ (checkRateLimit ⟨{1000}, some 5⟩ 2000 1 10).2.entries ∧
    2000 ∉ (admitSpec ⟨{1000}, some 5⟩ 2000 1 10).2.entries ∧
    (checkRateLimit ⟨{1000}, some 5⟩ 2000 1 10).2.ttl ≠
      (admitSpec ⟨{1000}, some 5⟩ 2000 1 10).2.ttl := by
  decide

/-- C1 (amended): checkRateLimit performs exactly the claimed algorithm
amended so that the insertion of now and the expiry refresh are
unconditional: remove entries older than now - windowSeconds, count the
remainder, insert now and refresh the expiry to windowSeconds, and
return allowed = (count < limit), remaining = max(0, limit - count - 1). -/
theorem checkRateLimit_eq_admitSpecAmended :
    ∀ (s : RateLimitState) (now maxRequests windowSeconds : Nat),
    checkRateLimit s now maxRequests windowSeconds =
      admitSpecAmended s now maxRequests windowSeconds := by
  intro s now maxRequests windowSeconds
  rfl

/-- C2: each admit call is one atomic MULTI transaction, and the model
grants that atomicity by sequencing the transactions; the bound still
fails.  With limit 2 per 60-second window, two concurrent calls in the
same millisecond (1000) and one at 1001 are all within one window span,
yet all three return allowed = true: the two same-millisecond requests
collapse into the single sorted-set member built from the timestamp
string, so the third call counts only one prior request. -/
theorem checkRateLimit_same_millisecond_overadmission :
    ((rlRun ⟨∅, none⟩ [1000, 1000, 1001] 2 60).1.map RateLimitResult.allowed) =
      [true, true, true] ∧
    (∀ t ∈ [1000, 1000, 1001], ∀ u ∈ [1000, 1000, 1001],
      (u : Int) - (60 : Int) * 1000 < (t : Int)) := by
  decide

/-- C7: starting from an empty window, for strictly increasing call
times that all lie within one windowSeconds span, the first
maxRequests calls are allowed, the next call is denied with
remaining = 0, and once a full window has elapsed past every recorded
call a new call is allowed again. -/
theorem checkRateLimit_window_admission
    (maxRequests windowSeconds : Nat) (hpos : 0 < maxRequests)
    (ts : List Nat) (hlen : ts.length = maxRequests + 1)
    (hsorted : List.Pairwise (· < ·) ts)
    (hspan : ∀ t ∈ ts, ∀ u ∈ ts, (u : Int) - (windowSeconds : Int) * 1000 < (t : Int))
    (resetTime : Nat) (hreset : ∀ t ∈ ts, t + windowSeconds * 1000 ≤ resetTime) :
    (∀ i, i < maxRequests →
      ((rlRun ⟨∅, none⟩ ts maxRequests windowSeconds).1.getD i default).allowed = true) ∧
    ((rlRun ⟨∅, none⟩ ts maxRequests windowSeconds).1.getD maxRequests default).allowed = false ∧
    ((rlRun ⟨∅, none⟩ ts maxRequests windowSeconds).1.getD maxRequests default).remaining = 0 ∧
    (checkRateLimit (rlRun ⟨∅, none⟩ ts maxRequests windowSeconds).2 resetTime
        maxRequests windowSeconds).1.allowed = true := by
  obtain ⟨hres, hent⟩ := rlRun_fresh_window maxRequests windowSeconds ts ∅ none
    hsorted hspan (by simp) (by simp)
  have hcard0 : (∅ : Finset Nat).card = 0 := Finset.card_empty
  refine ⟨?_, ?_, ?_, ?_⟩
  · intro i hi
    rw [hres, range_map_getD ts.length _ i (by omega)]
    simp only [mkRlResult, hcard0, Nat.zero_add]
    simpa using hi
  · rw [hres, range_map_getD ts.length _ maxRequests (by omega)]
    simp [mkRlResult]
  · rw [hres, range_map_getD ts.length _ maxRequests (by omega)]
    simp only [mkRlResult, hcard0, Nat.zero_add]
    rw [max_eq_left (by omega)]
  · have hfinal : (rlRun ⟨∅, none⟩ ts maxRequests windowSeconds).2.entries = ts.toFinset := by
      rw [hent, Finset.empty_union]
    have hfilter : ts.toFinset.filter
        (fun (t : Nat) => (resetTime : Int) - (windowSeconds : Int) * 1000 < (t : Int)) = ∅ := by
      apply Finset.filter_false_of_mem
      intro x hx
      have hx' := hreset x (List.mem_toFinset.mp hx)
      intro hcontra
      omega
    simp only [checkRateLimit, hfinal, hfilter]
    simpa using hpos

/-- C7 witness: limit 2 per 1-second window, calls at 0, 1 and 2 ms,
then a call at 1002 ms after the window has fully elapsed. -/
theorem checkRateLimit_window_admission_witness :
    (0 : Nat) < 2 ∧
    (((rlRun ⟨∅, none⟩ [0, 1, 2] 2 1).1.getD 0 default).allowed = true ∧
      ((rlRun ⟨∅, none⟩ [0, 1, 2] 2 1).1.getD 1 default).allowed = true) ∧
    ((rlRun ⟨∅, none⟩ [0, 1, 2] 2 1).1.getD 2 default).allowed = false ∧
    ((rlRun ⟨∅, none⟩ [0, 1, 2] 2 1).1.getD 2 default).remaining = 0 ∧
    (checkRateLimit (rlRun ⟨∅, none⟩ [0, 1, 2] 2 1).2 1002 2 1).1.allowed = true := by
  have h := checkRateLimit_window_admission 2 1 (by decide) [0, 1, 2] (by decide)
    (by decide) (by decide) 1002 (by decide)
  exact ⟨by decide, ⟨h.1 0 (by decide), h.1 1 (by decide)⟩, h.2.1, h.2.2.1, h.2.2.2⟩

/-- C3: for every route policy and every caller identity, the guard
decision equals the reference rule of the specification. -/
theorem rolesGuard_matches_accessDecisionSpec :
    ∀ (isPublic : Bool) (requiredRoles requiredPermissions : Option (List String))
      (user : Option UserContext),
    rolesGuardCanActivate isPublic requiredRoles requiredPermissions user =
      accessDecisionSpec isPublic requiredRoles requiredPermissions user := by
  intro pub rr rp user
  cases pub <;>
    rcases rr with _ | (_ | ⟨r, rs⟩) <;>
    rcases rp with _ | (_ | ⟨p, ps⟩) <;>
    rcases user with _ | u <;>
    simp [rolesGuardCanActivate, accessDecisionSpec, optListLen]

/-- C4 counterexample: a token with an empty subject, valid signature
and future expiry whose computed revocation key blacklist::5 is present
in the cache is nevertheless accepted: the payload.sub truthiness guard
skips the blacklist lookup entirely. -/
theorem jwtStrategy_empty_subject_revoked_cex :
    isTokenBlacklisted ["blacklist::5"] ("" ++ ":" ++ toString (5 : Nat)) = true ∧
    jwtStrategyValidate ⟨true, "", "e@x", [], [], none, 5, 100⟩ ["blacklist::5"] 10 ≠
      Except.error HttpAuthError.revoked ∧
    (jwtStrategyValidate ⟨true, "", "e@x", [], [], none, 5, 100⟩ ["blacklist::5"] 10).isOk =
      true := by
  decide

/-- C4 (amended): for a token with a non-empty subject whose revocation
key built from subject and issued-at is present in the cache, HTTP
credential validation fails Revoked — even with a valid signature and a
future expiry — and the failure is a 401. -/
theorem jwtStrategy_rejects_revoked (tok : JwtToken) (cache : List String) (now : Nat)
    (hsub : tok.sub ≠ "") (hsig : tok.sigValid = true) (hexp : now < tok.exp)
    (hbl : isTokenBlacklisted cache (tok.sub ++ ":" ++ toString tok.iat) = true) :
    jwtStrategyValidate tok cache now = Except.error HttpAuthError.revoked ∧
    authFailureStatus HttpAuthError.revoked = 401 := by
  refine ⟨?_, rfl⟩
  rw [jwtStrategyValidate, if_neg (by simp [hsig]), if_neg (by omega), if_pos ⟨hsub, hbl⟩]

/-- C4 witness: subject alice, issued at 5, expiry 100, checked at time
10, with blacklist:alice:5 in the cache. -/
theorem jwtStrategy_rejects_revoked_witness :
    jwtStrategyValidate ⟨true, "alice", "a@x", [], [], none, 5, 100⟩ ["blacklist:alice:5"] 10 =
      Except.error HttpAuthError.revoked ∧
    authFailureStatus HttpAuthError.revoked = 401 :=
  jwtStrategy_rejects_revoked ⟨true, "alice", "a@x", [], [], none, 5, 100⟩
    ["blacklist:alice:5"] 10 (by decide) (by decide) (by decide) (by decide)

/-- C5 counterexample: a token with valid signature and future expiry
whose subject/issued-at pair is revoked is rejected by the HTTP
pipeline but accepted by the WebSocket handshake validation, so the two
validations do not decide alike. -/
theorem ws_handshake_accepts_revoked_cex :
    jwtStrategyValidate ⟨true, "alice", "a@x", [], [], none, 5, 100⟩ ["blacklist:alice:5"] 10 =
      Except.error HttpAuthError.revoked ∧
    (wsJwtGuardValidateToken ⟨true, "alice", "a@x", [], [], none, 5, 100⟩ 10).isOk = true := by
  decide

/-- C5 (amended): WebSocket handshake validation performs the same
signature and expiry checks as the HTTP pipeline but omits the
revocation-list check: whenever no revocation entry applies the two
paths accept exactly the same tokens, and a revoked but otherwise valid
token is rejected by HTTP yet accepted at handshake. -/
theorem ws_vs_http_token_validation (tok : JwtToken) (cache : List String) (now : Nat) :
    (¬ (tok.sub ≠ "" ∧ isTokenBlacklisted cache (tok.sub ++ ":" ++ toString tok.iat) = true) →
      (wsJwtGuardValidateToken tok now).isOk = (jwtStrategyValidate tok cache now).isOk) ∧
    ((tok.sub ≠ "" ∧ isTokenBlacklisted cache (tok.sub ++ ":" ++ toString tok.iat) = true) →
      tok.sigValid = true → now < tok.exp →
      (wsJwtGuardValidateToken tok now).isOk = true ∧
      jwtStrategyValidate tok cache now = Except.error HttpAuthError.revoked) := by
  constructor
  · intro hno
    by_cases hsig : tok.sigValid = true
    · by_cases hexp : tok.exp ≤ now
      · simp [wsJwtGuardValidateToken, jwtStrategyValidate, hsig, hexp,
          Nat.not_lt.mpr hexp, Except.isOk, Except.toBool]
      · simp [wsJwtGuardValidateToken, jwtStrategyValidate, hsig, hexp,
          Nat.lt_of_not_le hexp, hno, Except.isOk, Except.toBool]
    · have hsig' : tok.sigValid = false := by
        cases h : tok.sigValid
        · rfl
        · exact absurd h hsig
      simp [wsJwtGuardValidateToken, jwtStrategyValidate, hsig', Except.isOk, Except.toBool]
  · intro hrev hsig hexp
    constructor
    · simp [wsJwtGuardValidateToken, hsig, hexp, Except.isOk, Except.toBool]
    · rw [jwtStrategyValidate, if_neg (by simp [hsig]), if_neg (by omega), if_pos hrev]

/-- C5 witness: the divergence branch of the comparison theorem at the
revoked alice token. -/
theorem ws_vs_http_token_validation_witness :
    (wsJwtGuardValidateToken ⟨true, "alice", "a@x", [], [], none, 5, 100⟩ 10).isOk = true ∧
    jwtStrategyValidate ⟨true, "alice", "a@x", [], [], none, 5, 100⟩ ["blacklist:alice:5"] 10 =
      Except.error HttpAuthError.revoked :=
  (ws_vs_http_token_validation ⟨true, "alice", "a@x", [], [], none, 5, 100⟩
    ["blacklist:alice:5"] 10).2 (by decide) (by decide) (by decide)

/-- C6: a downstream timeout (axios aborts the request with ETIMEDOUT
or ECONNABORTED and no response) makes forward fail with status 504 and
code GATEWAY_TIMEOUT; the client-visible message is the fixed literal
regardless of the transport error message, and the result depends only
on the first dispatch — no retry is consulted. -/
theorem proxyForward_timeout_504 (attempts : Nat → DownstreamOutcome) (e : AxiosErrorModel)
    (hfail : attempts 0 = DownstreamOutcome.failure e)
    (hax : e.isAxiosError = true) (hnr : e.response = none)
    (hcode : e.code = some "ETIMEDOUT" ∨ e.code = some "ECONNABORTED") :
    proxyForward attempts = Except.error
      { status := 504, code := "GATEWAY_TIMEOUT", message := "Service request timed out" } ∧
    (∀ alt : Nat → DownstreamOutcome, alt 0 = attempts 0 →
      proxyForward alt = proxyForward attempts) := by
  constructor
  · rw [proxyForward, hfail]
    have hrefused : e.code ≠ some "ECONNREFUSED" := by
      rcases hcode with h | h <;> simp [h]
    simp [handleProxyError, hax, hnr, hrefused, hcode]
  · intro alt halt
    rw [proxyForward, proxyForward, halt]

/-- C6 witness: a concrete aborted dispatch with the axios timeout
message. -/
theorem proxyForward_timeout_504_witness :
    proxyForward (fun _ => DownstreamOutcome.failure
      ⟨true, none, some "ECONNABORTED", "timeout of 30000ms exceeded"⟩) = Except.error
      { status := 504, code := "GATEWAY_TIMEOUT", message := "Service request timed out" } :=
  (proxyForward_timeout_504
    (fun _ => DownstreamOutcome.failure
      ⟨true, none, some "ECONNABORTED", "timeout of 30000ms exceeded"⟩)
    ⟨true, none, some "ECONNABORTED", "timeout of 30000ms exceeded"⟩
    rfl rfl rfl (Or.inr rfl)).1

/-- C8 counterexample: a DNS resolution failure (code ENOTFOUND, no
response) is a connection failure, yet it is normalized to 500
INTERNAL_ERROR, not 503 SERVICE_UNAVAILABLE: only ECONNREFUSED takes
the 503 branch. -/
theorem proxy_conn_failure_not_503_cex :
    handleProxyError ⟨true, none, some "ENOTFOUND", "getaddrinfo ENOTFOUND patient-service"⟩ =
      { status := 500, code := "INTERNAL_ERROR", message := "An unexpected error occurred" } ∧
    (handleProxyError
      ⟨true, none, some "ENOTFOUND", "getaddrinfo ENOTFOUND patient-service"⟩).status ≠ 503 := by
  decide

/-- C8 (amended): among no-response axios failures, exactly the
connection-refused code is normalized to 503 SERVICE_UNAVAILABLE; any
other non-timeout code — including other kinds of connection failure
such as DNS errors — is normalized to 500 INTERNAL_ERROR. -/
theorem proxy_connection_failure_normalization (e : AxiosErrorModel)
    (hax : e.isAxiosError = true) (hnr : e.response = none) :
    (e.code = some "ECONNREFUSED" → handleProxyError e =
      { status := 503, code := "SERVICE_UNAVAILABLE"
      , message := "Service temporarily unavailable" }) ∧
    (e.code ≠ some "ECONNREFUSED" → e.code ≠ some "ETIMEDOUT" → e.code ≠ some "ECONNABORTED" →
      handleProxyError e =
        { status := 500, code := "INTERNAL_ERROR"
        , message := "An unexpected error occurred" }) := by
  constructor
  · intro h
    simp [handleProxyError, hax, hnr, h]
  · intro h1 h2 h3
    simp [handleProxyError, hax, hnr, h1, h2, h3]

/-- C8 witness: the refused branch at a concrete connection-refused
failure. -/
theorem proxy_connection_failure_normalization_witness :
    handleProxyError ⟨true, none, some "ECONNREFUSED", "connect ECONNREFUSED 127.0.0.1:3002"⟩ =
      { status := 503, code := "SERVICE_UNAVAILABLE"
      , message := "Service temporarily unavailable" } :=
  (proxy_connection_failure_normalization
    ⟨true, none, some "ECONNREFUSED", "connect ECONNREFUSED 127.0.0.1:3002"⟩ rfl rfl).1 rfl

/-- C9 counterexample: a caller with only the patient role and no
permissions may subscribe to any appointment room over WebSocket, while
the equivalent REST resource (appointment read routes require the
appointment:read permission) denies that caller, and while the patient
room subscribe denies them — the appointment subscribe is not
permission-gated. -/
theorem ws_appointment_subscribe_ungated_cex :
    (handleSubscribeAppointment ⟨"u1", "p@x", ["patient"], [], none⟩ "123").isOk = true ∧
    rolesGuardCanActivate false none (some ["appointment:read"])
      (some ⟨"u1", "p@x", ["patient"], [], none⟩) = false ∧
    handleSubscribePatient ⟨"u1", "p@x", ["patient"], [], none⟩ "77" =
      Except.error WsError.insufficientPermissions := by
  decide

/-- C9 (amended): the patient-room subscribe succeeds exactly for
callers holding at least one of the roles admin, doctor, nurse, while
the appointment-room subscribe succeeds for every authenticated caller,
with no role or permission gate. -/
theorem ws_subscribe_gating (u : UserContext) (patientId appointmentId : String) :
    ((handleSubscribePatient u patientId).isOk =
      u.roles.any (fun r => patientRoomRoles.contains r)) ∧
    handleSubscribeAppointment u appointmentId =
      Except.ok { event := "subscribed", room := "appointment:" ++ appointmentId } := by
  refine ⟨?_, rfl⟩
  rw [handleSubscribePatient]
  cases h : u.roles.any (fun r => patientRoomRoles.contains r)
  · rfl
  · rfl

/-- C10: registering a WebSocket session writes both mirror entries
with a fixed 3600-second expiry — with no further writes they answer
at time t2 exactly when t2 < t + 3600, so a connection open longer
than one hour loses its cross-instance presence signal — and an
explicit disconnect removes both entries at any time. -/
theorem wsSession_mirror_ttl (c : WsCache) (socketId userId : String) (t t2 : Nat) :
    ((liveKv (registerWebSocketSession c socketId userId t)
        ("ws:session:" ++ socketId) t2).isSome = true ↔ t2 < t + 3600) ∧
    (socketId ∈ liveSetMembers (registerWebSocketSession c socketId userId t)
        ("ws:user:" ++ userId) t2 ↔ t2 < t + 3600) ∧
    liveKv (removeWebSocketSession (registerWebSocketSession c socketId userId t)
        socketId userId) ("ws:session:" ++ socketId) t2 = none ∧
    socketId ∉ liveSetMembers (removeWebSocketSession (registerWebSocketSession c socketId userId t)
        socketId userId) ("ws:user:" ++ userId) t2 := by
  refine ⟨?_, ?_, ?_, ?_⟩
  · by_cases h : t2 < t + 3600 <;>
      simp [liveKv, registerWebSocketSession, h]
  · by_cases h : t2 < t + 3600 <;>
      simp [liveSetMembers, registerWebSocketSession, h]
  · simp [liveKv, removeWebSocketSession]
  · rw [liveSetMembers]
    simp only [removeWebSocketSession, registerWebSocketSession, if_pos rfl]
    by_cases h : t2 < t + 3600
    · simp [h, Finset.erase_insert_of_ne, Finset.not_mem_erase]
    · simp [h]

end CareFlow
